import Mathlib

/-!
Shallow embedding of `faderport.py`: a driver for the Presonus FaderPort
MIDI control surface.  Pure data (the button registry, the glyph table)
is translated directly; the stateful controller is modelled by explicit
state passing over `FPState`, with the outbound MIDI traffic recorded in
a `sent` log and Python exceptions modelled with `Except`/`Option`.
-/

namespace Faderport

/-- Source `Button = namedtuple('Button', ['name', 'press'])`. -/
structure Button where
  name : String
  press : Nat
deriving DecidableEq, Repr

/-- The 26 buttons of the `BUTTONS` list, in source order. -/
def BUTTONS : List Button := [
  ⟨"Solo", 8⟩,
  ⟨"Mute", 16⟩,
  ⟨"Arm", 0⟩,
  ⟨"Shift", 70⟩,
  ⟨"Bypass", 3⟩,
  ⟨"Touch", 77⟩,
  ⟨"Write", 75⟩,
  ⟨"Read", 74⟩,
  ⟨"Prev", 46⟩,
  ⟨"Knob", 32⟩,
  ⟨"Next", 47⟩,
  ⟨"Link", 5⟩,
  ⟨"Pan", 42⟩,
  ⟨"Channel", 54⟩,
  ⟨"Scroll", 56⟩,
  ⟨"Master", 58⟩,
  ⟨"Click", 59⟩,
  ⟨"Section", 60⟩,
  ⟨"Marker", 61⟩,
  ⟨"Loop", 86⟩,
  ⟨"Rewind", 91⟩,
  ⟨"Forward", 92⟩,
  ⟨"Stop", 93⟩,
  ⟨"Play", 94⟩,
  ⟨"Record", 95⟩,
  ⟨"Pedal", 102⟩
]

/-- Python `str.title()` on an ASCII string: a letter is uppercased when
the previous character is not a letter, lowercased otherwise. -/
def titleAux : Bool → List Char → List Char
  | _, [] => []
  | prevAlpha, c :: rest =>
      (if c.isAlpha then (if prevAlpha then c.toLower else c.toUpper) else c)
        :: titleAux c.isAlpha rest

/-- Python `name.title()`. -/
def title (s : String) : String := String.mk (titleAux false s.data)

/-- Source `button_from_name`: `_button_from_name[name.title()]`.  A missing key
raises `KeyError` in Python, modelled by `Except.error`. -/
def button_from_name (name : String) : Except String Button :=
  match BUTTONS.find? (fun b => b.name == title name) with
  | some b => Except.ok b
  | none => Except.error "KeyError"

/-- Source `button_from_press`: `_button_from_press.get(press, None)`; an unknown
code returns `None`, never raises. -/
def button_from_press (press : Nat) : Option Button :=
  BUTTONS.find? (fun b => b.press == press)

/-- The `CHARACTERS` glyph table: hex character to the indices of the
buttons that display it. -/
def CHARACTERS : List (Char × List Nat) := [
  ('0', [0, 1, 2, 3, 4, 7, 11, 14, 15, 16, 17, 18]),
  ('1', [1, 2, 4, 6, 13, 15, 16, 17, 18]),
  ('2', [1, 2, 4, 7, 10, 12, 15, 16, 17, 18]),
  ('3', [1, 2, 4, 7, 8, 10, 11, 14, 16, 17]),
  ('4', [2, 5, 8, 10, 11, 12, 13, 14, 18]),
  ('5', [1, 2, 4, 7, 8, 13, 15, 16, 17, 18]),
  ('6', [0, 1, 2, 3, 4, 8, 10, 11, 14, 15, 16, 17, 18]),
  ('7', [0, 1, 2, 3, 7, 13, 16]),
  ('8', [0, 1, 2, 3, 5, 6, 12, 13, 15, 16, 17, 18]),
  ('9', [0, 1, 2, 3, 4, 7, 8, 10, 14, 15, 16, 17, 18]),
  ('A', [4, 5, 7, 10, 11, 12, 13, 14, 15, 18, 19, 23]),
  ('B', [4, 5, 6, 7, 10, 12, 13, 14, 15, 18, 20, 21, 22, 23]),
  ('C', [4, 5, 7, 10, 14, 15, 18, 20, 21, 22]),
  ('D', [4, 5, 6, 7, 10, 11, 14, 15, 18, 20, 21, 22, 23]),
  ('E', [4, 5, 6, 7, 13, 14, 15, 20, 21, 22, 23]),
  ('F', [4, 5, 6, 7, 13, 14, 15, 23])
]

/-- Glyph lookup, `CHARACTERS[c]` guarded by `c in CHARACTERS`. -/
def glyph_for (c : Char) : Option (List Nat) :=
  (CHARACTERS.find? (fun p => p.1 == c)).map Prod.snd

/-- Outbound/inbound MIDI messages (the mido message shapes the driver uses). -/
inductive Msg where
  | noteOn (note velocity : Nat)
  | pitchwheel (pitch : Int)
  | controlChange (control value : Nat)
deriving DecidableEq, Repr

/-- The semantic events, i.e. the hook invocations `on_fader`,
`on_fader_touch`, `on_button` and `on_rotary`. -/
inductive Event where
  | faderMoved (value : Int)
  | faderTouch (state : Bool)
  | buttonEvent (button : Button) (state : Bool)
  | rotary (direction : Int)
deriving DecidableEq, Repr

/-- The observable controller state: the `_fader` cache, the lifecycle
flags of the two mido ports, and the log of messages sent on `outport`. -/
structure FPState where
  fader : Int
  callbackRegistered : Bool
  inOpen : Bool
  outOpen : Bool
  outReset : Bool
  sent : List Msg
deriving DecidableEq, Repr

/-- Source `FaderPort.__init__`: ports unset, `_fader = -8192`. -/
def initState : FPState :=
  { fader := -8192, callbackRegistered := false, inOpen := false,
    outOpen := false, outReset := false, sent := [] }

/-- The `fader` property getter: returns the cached `_fader`. -/
def fader_get (s : FPState) : Int := s.fader

/-- The `fader` property setter:
`-8192 if value < -8192 else 8191 if value > 8191 else value`,
cached and sent as a pitchwheel message. -/
def set_fader (s : FPState) (value : Int) : FPState :=
  let f : Int := if value < -8192 then -8192 else if value > 8191 then 8191 else value
  { s with fader := f, sent := s.sent ++ [Msg.pitchwheel f] }

/-- Source `light_on`: send `note_on(note=button.press, velocity=127)`. -/
def light_on (s : FPState) (b : Button) : FPState :=
  { s with sent := s.sent ++ [Msg.noteOn b.press 127] }

/-- Source `light_off`: send `note_on(note=button.press, velocity=0)`. -/
def light_off (s : FPState) (b : Button) : FPState :=
  { s with sent := s.sent ++ [Msg.noteOn b.press 0] }

/-- Source `all_off`: `light_off` on every button in order. -/
def all_off (s : FPState) : FPState :=
  BUTTONS.foldl light_off s

/-- Source `all_on`: `light_on` on every button in order. -/
def all_on (s : FPState) : FPState :=
  BUTTONS.foldl light_on s

/-- Source `char_on`: when `c.upper()` has a glyph, `light_on(BUTTONS[i])` for each
index of the glyph; the list indexing can raise `IndexError` in Python,
modelled by `none`.  A character with no glyph is a no-op. -/
def char_on (s : FPState) (c : Char) : Option FPState :=
  match glyph_for c.toUpper with
  | some idxs =>
      idxs.foldlM (fun st i => (BUTTONS[i]?).map (fun b => light_on st b)) s
  | none => some s

/-- Source `_message_callback`: dispatch one inbound message to state change,
semantic events and printed diagnostics. -/
def message_callback (s : FPState) (m : Msg) : FPState × List Event × List String :=
  match m with
  | Msg.pitchwheel p => ({ s with fader := p }, [Event.faderMoved p], [])
  | Msg.noteOn note velocity =>
      if note == 104 then
        (s, [Event.faderTouch (velocity != 0)], [])
      else
        match button_from_press note with
        | some b => (s, [Event.buttonEvent b (velocity != 0)], [])
        | none => (s, [], ["Button not found"])
  | Msg.controlChange control value =>
      if control == 16 then
        (s, [Event.rotary (if value > 64 then -1 else 1)], [])
      else
        (s, [], ["Unhandled"])

/-- The teardown steps of `close()` after the `on_close()` hook: unregister
the callback, `fader = -8192`, `all_off()`, `outport.reset()`, close both
ports. -/
def closeTeardown (s : FPState) : FPState :=
  let s1 := { s with callbackRegistered := false }
  let s2 := set_fader s1 (-8192)
  let s3 := all_off s2
  let s4 := { s3 with outReset := true }
  let s5 := { s4 with inOpen := false }
  { s5 with outOpen := false }

/-- Source `close()`: run the `on_close` hook first (a raised exception, modelled
by `Except.error`, propagates and skips all later steps), then the
teardown steps. -/
def close (onClose : FPState → Except String FPState) (s : FPState) :
    Except String FPState := do
  let s1 ← onClose s
  pure (closeTeardown s1)

/-- Default used to totalise list indexing inside the chase model; every
index we evaluate is proved in bounds, so the default is never reached. -/
def defButton : Button := ⟨"", 0⟩

/-- The fixed 12-button chase sequence, built by `button_from_name` exactly
as `chase` builds `seq`. -/
def chaseSeqE : Except String (List Button) :=
  (["Solo", "Mute", "Arm", "Shift", "Read", "Scroll",
    "Marker", "Section", "Click", "Master", "Link", "Bypass"]).mapM button_from_name

/-- The chase sequence as a plain list (its construction succeeds, see
`chaseSeqE_ok`). -/
def chaseSeq : List Button :=
  match chaseSeqE with
  | Except.ok l => l
  | Except.error _ => []

/-- Source `num_lights = num_lights if num_lights in [1, 2, 3, 4] else 2`,
as a cursor count. -/
def numCursors (num_lights : Int) : Nat :=
  (if num_lights = 1 ∨ num_lights = 2 ∨ num_lights = 3 ∨ num_lights = 4
   then num_lights else 2).toNat

/-- A `cycle(seq)` iterator: `idx` counts how many `next` calls happened
since creation; the yielded element is `seq[idx % len(seq)]`. -/
structure Cursor where
  idx : Nat
deriving DecidableEq, Repr

/-- One `next(it)` call on a cyclic iterator over `l`. -/
def Cursor.next (c : Cursor) (l : List Button) : Button × Cursor :=
  (l.getD (c.idx % l.length) defButton, ⟨c.idx + 1⟩)

/-- Source `its = [cycle(seq) for _ in range(num_lights)]` followed by
`consume(it, i * (len(seq) // num_lights))` for each cursor `i > 0`. -/
def mkCursors (n : Nat) : List Cursor :=
  (List.range n).map (fun i => ⟨if i = 0 then 0 else i * (chaseSeq.length / n)⟩)

/-- The cursors `chase` actually creates for a given `num_lights` argument. -/
def chaseCursors (num_lights : Int) : List Cursor :=
  mkCursors (numCursors num_lights)

/-- One chase tick's on-phase: `next` every cursor and light the yielded
buttons (the subsequent `all_off` ends the tick). -/
def tickOnce (l : List Button) (cs : List Cursor) : List Button × List Cursor :=
  (cs.map (fun c => (c.next l).1), cs.map (fun c => (c.next l).2))

/-- Run `ticks` chase steps, returning the list of buttons lit during each
tick's on-phase. -/
def chaseTicks (l : List Button) (cs : List Cursor) : Nat → List (List Button)
  | 0 => []
  | Nat.succ t =>
      let step := tickOnce l cs
      step.1 :: chaseTicks l step.2 t

/-- The per-tick on-phase light lists of `chase(num_lights=n, ticks=T)`. -/
def chaseRun (num_lights : Int) (ticks : Nat) : List (List Button) :=
  chaseTicks chaseSeq (chaseCursors num_lights) ticks

/-- Closed form of a tick's on-phase lights: cursor `i` at tick `t` sits at
position `(i * (12 / n) + t) % 12` of the sequence. -/
def tickLights (n t : Nat) : List Button :=
  (List.range n).map (fun i => chaseSeq.getD ((i * (chaseSeq.length / n) + t) % chaseSeq.length) defButton)

/-- Modelled from the spec: `num_lights` "clamped to 1–4", i.e. values
below 1 become 1 and values above 4 become 4 (the claim's reading, to be
compared with `numCursors`). -/
def numLightsClampSpec (num_lights : Int) : Nat :=
  (max 1 (min num_lights 4)).toNat

/-- A state as it is after `open()`: callback registered, both ports open. -/
def openedState : FPState :=
  { fader := 0, callbackRegistered := true, inOpen := true,
    outOpen := true, outReset := false, sent := [] }

/-- Well-formedness of an inbound mido message: a pitchwheel payload is a
signed 14-bit value, note/velocity/controller/value are 7-bit. -/
def wfMsg : Msg → Prop
  | Msg.pitchwheel p => -8192 ≤ p ∧ p ≤ 8191
  | Msg.noteOn note velocity => note ≤ 127 ∧ velocity ≤ 127
  | Msg.controlChange control value => control ≤ 127 ∧ value ≤ 127

/-- The fader cache is inside its legal range. -/
def faderInRange (s : FPState) : Prop := -8192 ≤ s.fader ∧ s.fader ≤ 8191

instance (s : FPState) : Decidable (faderInRange s) := by
  unfold faderInRange
  infer_instance

end Faderport

deriving instance DecidableEq for Except

namespace Faderport

/-- The nested conditional of the fader setter is the clamp into
`[-8192, 8191]`. -/
lemma fader_clamp_eq (v : Int) :
    (if v < -8192 then (-8192 : Int) else if v > 8191 then 8191 else v)
      = max (-8192) (min v 8191) := by
  split_ifs <;> omega

/-- C3: the fader setter clamps into `[-8192, 8191]`, caches the clamped
value, immediately sends it as a pitchwheel message, and the getter then
returns it; in particular writing 9000 caches 8191 and writing -9000
caches -8192. -/
theorem C3_fader_setter (s : FPState) (v : Int) :
    fader_get (set_fader s v) = max (-8192) (min v 8191) ∧
    (set_fader s v).sent = s.sent ++ [Msg.pitchwheel (max (-8192) (min v 8191))] ∧
    fader_get (set_fader s 9000) = 8191 ∧
    fader_get (set_fader s (-9000)) = -8192 := by
  refine ⟨?_, ?_, ?_, ?_⟩ <;>
    simp [fader_get, set_fader, fader_clamp_eq]

/-- C6: every button of the registry round-trips through both lookup
tables: `button_from_name` on its name and `button_from_press` on its
press code both return the button itself. -/
theorem C6_registry_roundtrip :
    ∀ b ∈ BUTTONS, button_from_name b.name = Except.ok b ∧
      button_from_press b.press = some b := by
  decide

/-- Witness for C6 at the `Mute` button. -/
theorem C6_registry_roundtrip_witness :
    button_from_name "Mute" = Except.ok ⟨"Mute", 16⟩ ∧
      button_from_press 16 = some ⟨"Mute", 16⟩ :=
  C6_registry_roundtrip ⟨"Mute", 16⟩ (by decide)

/-- C7: a code lookup for an unregistered code returns `none` without
signalling an error, a name lookup with no case-insensitive (title-case)
match raises `KeyError`, and a glyph lookup for an unmapped character
also returns `none` without error — name lookup is the only registry
operation that fails. -/
theorem C7_lookup_failure (press : Nat) (name : String) (c : Char) :
    (press ∉ BUTTONS.map Button.press → button_from_press press = none) ∧
    ((∀ b ∈ BUTTONS, b.name ≠ title name) →
      button_from_name name = Except.error "KeyError") ∧
    (c ∉ CHARACTERS.map Prod.fst → glyph_for c = none) := by
  refine ⟨?_, ?_, ?_⟩
  · intro h
    unfold button_from_press
    rw [List.find?_eq_none]
    intro b hb
    simp only [beq_iff_eq]
    intro hc
    exact h (hc ▸ List.mem_map_of_mem Button.press hb)
  · intro h
    unfold button_from_name
    have hf : BUTTONS.find? (fun b => b.name == title name) = none := by
      rw [List.find?_eq_none]
      intro b hb
      simp only [beq_iff_eq]
      exact h b hb
    rw [hf]
  · intro h
    unfold glyph_for
    have hf : CHARACTERS.find? (fun p => p.1 == c) = none := by
      rw [List.find?_eq_none]
      intro p hp
      simp only [beq_iff_eq]
      intro hc
      exact h (hc ▸ List.mem_map_of_mem Prod.fst hp)
    rw [hf]
    rfl

/-- Witness for C7: code 1 is unmapped, name "Xyzzy" is unknown,
character 'z' has no glyph. -/
theorem C7_lookup_failure_witness :
    button_from_press 1 = none ∧
    button_from_name "Xyzzy" = Except.error "KeyError" ∧
    glyph_for 'z' = none :=
  ⟨(C7_lookup_failure 1 "Xyzzy" 'z').1 (by decide),
   (C7_lookup_failure 1 "Xyzzy" 'z').2.1 (by decide),
   (C7_lookup_failure 1 "Xyzzy" 'z').2.2 (by decide)⟩

/-- C4: for an inbound note-on message, note 104 yields exactly one
fader-touch event (and no button event); any other registered note yields
exactly one button event for the looked-up control; an unregistered note
yields no event, one diagnostic, and no failure — the state is unchanged
in the last two cases as well. -/
theorem C4_note_on_dispatch (s : FPState) (note velocity : Nat) :
    (note = 104 →
      message_callback s (Msg.noteOn note velocity)
        = (s, [Event.faderTouch (velocity != 0)], [])) ∧
    (∀ b, note ≠ 104 → button_from_press note = some b →
      message_callback s (Msg.noteOn note velocity)
        = (s, [Event.buttonEvent b (velocity != 0)], [])) ∧
    (note ≠ 104 → button_from_press note = none →
      message_callback s (Msg.noteOn note velocity)
        = (s, [], ["Button not found"])) := by
  refine ⟨?_, ?_, ?_⟩
  · intro h
    subst h
    simp [message_callback]
  · intro b h hb
    simp [message_callback, h, hb]
  · intro h hb
    simp [message_callback, h, hb]

/-- Witness for C4: note 104 (touch), note 16 (the `Mute` button), and
note 1 (unregistered). -/
theorem C4_note_on_dispatch_witness :
    message_callback initState (Msg.noteOn 104 1)
      = (initState, [Event.faderTouch true], []) ∧
    message_callback initState (Msg.noteOn 16 1)
      = (initState, [Event.buttonEvent ⟨"Mute", 16⟩ true], []) ∧
    message_callback initState (Msg.noteOn 1 1)
      = (initState, [], ["Button not found"]) :=
  ⟨(C4_note_on_dispatch initState 104 1).1 rfl,
   (C4_note_on_dispatch initState 16 1).2.1 ⟨"Mute", 16⟩ (by decide) (by decide),
   (C4_note_on_dispatch initState 1 1).2.2 (by decide) (by decide)⟩

/-- C9: the cached fader value always lies in `[-8192, 8191]`: it does at
construction, after every write through the setter (which also only ever
transmits an in-range value), and after any well-formed inbound message. -/
theorem C9_fader_range_invariant :
    faderInRange initState ∧
    (∀ (s : FPState) (v : Int), faderInRange (set_fader s v) ∧
      ∃ f, -8192 ≤ f ∧ f ≤ 8191 ∧
        (set_fader s v).sent = s.sent ++ [Msg.pitchwheel f]) ∧
    (∀ (s : FPState) (m : Msg), faderInRange s → wfMsg m →
      faderInRange (message_callback s m).1) := by
  refine ⟨by decide, ?_, ?_⟩
  · intro s v
    refine ⟨?_, max (-8192) (min v 8191), ?_, ?_, ?_⟩ <;>
      simp [faderInRange, set_fader, fader_clamp_eq]
  · intro s m hs hm
    cases m with
    | pitchwheel p =>
        exact ⟨hm.1, hm.2⟩
    | noteOn note velocity =>
        simp only [message_callback]
        split
        · exact hs
        · cases button_from_press note <;> exact hs
    | controlChange control value =>
        simp only [message_callback]
        split <;> exact hs

/-- Witness for C9's conditional part: a well-formed pitchwheel message
keeps the cache in range. -/
theorem C9_fader_range_invariant_witness :
    faderInRange (message_callback initState (Msg.pitchwheel 5)).1 :=
  C9_fader_range_invariant.2.2 initState (Msg.pitchwheel 5)
    (by decide) ⟨by decide, by decide⟩

/-- The characters accepted by `char_on`: hex digits in either case. -/
def hexDigits : List Char :=
  ['0', 'A', 'a', '1', 'B', 'b', '2', 'C', 'c', '3', 'D', 'd',
   '4', 'E', 'e', '5', 'F', 'f', '6', '7', '8', '9']

/-- The light-on message for the button at index `i`. -/
def glyphMsg (i : Nat) : Msg := Msg.noteOn (BUTTONS.getD i defButton).press 127

/-- The light-on messages rendering the glyph of `c`. -/
def glyphMsgs (c : Char) : List Msg :=
  ((glyph_for c.toUpper).getD []).map glyphMsg

/-- Every index of every glyph is a valid index into `BUTTONS`. -/
lemma glyph_indices_lt : ∀ p ∈ CHARACTERS, ∀ i ∈ p.2, i < BUTTONS.length := by
  decide

/-- Indices returned by a successful glyph lookup are in bounds. -/
lemma glyph_for_indices_lt {c : Char} {idxs : List Nat}
    (h : glyph_for c = some idxs) : ∀ i ∈ idxs, i < BUTTONS.length := by
  unfold glyph_for at h
  cases hf : CHARACTERS.find? (fun p => p.1 == c) with
  | none => rw [hf] at h; cases h
  | some p =>
      rw [hf] at h
      have hp : p ∈ CHARACTERS := List.mem_of_find?_eq_some hf
      have he : p.2 = idxs := by simpa using h
      exact he ▸ glyph_indices_lt p hp

/-- Evaluating `char_on`'s indexing loop when every index is in bounds. -/
lemma foldlM_light_on (idxs : List Nat) :
    ∀ (s : FPState), (∀ i ∈ idxs, i < BUTTONS.length) →
      List.foldlM (fun st i => (BUTTONS[i]?).map (fun b => light_on st b)) s idxs
        = some { s with sent := s.sent ++ idxs.map glyphMsg } := by
  induction idxs with
  | nil =>
      intro s _
      simp
  | cons i is ih =>
      intro s h
      have hi : i < BUTTONS.length := h i (List.mem_cons_self i is)
      rw [List.foldlM_cons, List.getElem?_eq_getElem hi]
      simp only [Option.map_some']
      show List.foldlM (fun st i => (BUTTONS[i]?).map (fun b => light_on st b))
        (light_on s (BUTTONS.get ⟨i, hi⟩)) is = _
      rw [ih (light_on s (BUTTONS.get ⟨i, hi⟩)) (fun j hj => h j (List.mem_cons_of_mem i hj))]
      simp [light_on, glyphMsg, List.getD, List.getElem?_eq_getElem hi]

/-- Evaluation of `char_on` on a character whose uppercasing has a glyph. -/
lemma char_on_eq_of_glyph {c : Char} {idxs : List Nat} (s : FPState)
    (h : glyph_for c.toUpper = some idxs) :
    char_on s c = some { s with sent := s.sent ++ idxs.map glyphMsg } := by
  unfold char_on
  rw [h]
  exact foldlM_light_on idxs s (glyph_for_indices_lt h)

/-- Rewriting `glyphMsgs` as the mapped glyph index set. -/
lemma glyphMsgs_eq {c : Char} {idxs : List Nat}
    (h : glyph_for c.toUpper = some idxs) :
    glyphMsgs c = idxs.map glyphMsg := by
  unfold glyphMsgs
  rw [h]
  rfl

/-- Every hex digit's uppercasing has a glyph. -/
lemma hex_glyph_isSome : ∀ c ∈ hexDigits, (glyph_for c.toUpper).isSome = true := by
  decide

/-- The keys of the glyph table are hex digits. -/
lemma keys_subset_hexDigits : ∀ p ∈ CHARACTERS, p.1 ∈ hexDigits := by
  decide

/-- A character outside the hex set uppercases to no glyph key. -/
lemma glyph_for_toUpper_eq_none {c : Char} (hc : c ∉ hexDigits) :
    glyph_for c.toUpper = none := by
  by_cases h : 97 ≤ c.toNat ∧ c.toNat ≤ 122
  · obtain ⟨n, hub, h1, h2⟩ : ∃ n, c = Char.ofNat n ∧ 97 ≤ n ∧ n ≤ 122 :=
      ⟨c.toNat, (Char.ofNat_toNat c).symm, h.1, h.2⟩
    subst hub
    interval_cases n <;> first | decide | exact absurd (by decide) hc
  · have hup : c.toUpper = c := by
      show (if c.toNat ≥ 97 ∧ c.toNat ≤ 122 then Char.ofNat (c.toNat - 32) else c) = c
      rw [if_neg h]
    rw [hup]
    unfold glyph_for
    have hf : CHARACTERS.find? (fun p => p.1 == c) = none := by
      rw [List.find?_eq_none]
      intro p hp
      simp only [beq_iff_eq]
      intro he
      exact hc (he ▸ keys_subset_hexDigits p hp)
    rw [hf]
    rfl

/-- C8: `char_on` lights exactly the controls at the glyph index set of the
uppercased character when it is a hex digit, and emits nothing (and does
not fail) otherwise; from an all-off initial state, `char_on 'A'` emits
exactly the light-on messages of the index set defined for `'A'`. -/
theorem C8_char_on_glyph (s : FPState) (c : Char) :
    (c ∈ hexDigits → char_on s c = some { s with sent := s.sent ++ glyphMsgs c }) ∧
    (c ∉ hexDigits → char_on s c = some s) ∧
    char_on initState 'A' = some { initState with sent :=
      [Msg.noteOn 3 127, Msg.noteOn 77 127, Msg.noteOn 74 127, Msg.noteOn 47 127,
       Msg.noteOn 5 127, Msg.noteOn 42 127, Msg.noteOn 54 127, Msg.noteOn 56 127,
       Msg.noteOn 58 127, Msg.noteOn 61 127, Msg.noteOn 86 127, Msg.noteOn 94 127] } := by
  refine ⟨?_, ?_, by decide⟩
  · intro hc
    obtain ⟨idxs, hg⟩ := Option.isSome_iff_exists.mp (hex_glyph_isSome c hc)
    rw [char_on_eq_of_glyph s hg, glyphMsgs_eq hg]
  · intro hc
    unfold char_on
    rw [glyph_for_toUpper_eq_none hc]

/-- Witness for C8 at `'b'` (hex, lowercase) and `'z'` (not hex). -/
theorem C8_char_on_glyph_witness :
    char_on initState 'b' = some { initState with sent := initState.sent ++ glyphMsgs 'b' } ∧
    char_on initState 'z' = some initState :=
  ⟨(C8_char_on_glyph initState 'b').1 (by decide),
   (C8_char_on_glyph initState 'z').2.1 (by decide)⟩

/-- C10: every index in every glyph's index set is strictly below 26, the
length of the button list, so `char_on`'s list indexing never raises
`IndexError` — `char_on` succeeds on every character and every state. -/
theorem C10_glyph_indices_safe :
    (∀ p ∈ CHARACTERS, ∀ i ∈ p.2, i < BUTTONS.length) ∧
    (∀ (s : FPState) (c : Char), (char_on s c).isSome = true) := by
  refine ⟨glyph_indices_lt, ?_⟩
  intro s c
  cases hg : glyph_for c.toUpper with
  | none =>
      unfold char_on
      rw [hg]
      rfl
  | some idxs =>
      rw [char_on_eq_of_glyph s hg]
      rfl

/-- Witness for C10 at the glyph of `'0'` and a concrete `char_on` call. -/
theorem C10_glyph_indices_safe_witness :
    (0 < BUTTONS.length) ∧ (char_on openedState 'F').isSome = true :=
  ⟨C10_glyph_indices_safe.1 ('0', [0, 1, 2, 3, 4, 7, 11, 14, 15, 16, 17, 18])
      (by decide) 0 (by decide),
   C10_glyph_indices_safe.2 openedState 'F'⟩

/-- The 26 light-off messages `all_off` emits, in button order. -/
def offMsgs : List Msg := BUTTONS.map (fun b => Msg.noteOn b.press 0)

/-- Appending behaviour of `all_off`: one light-off message per button, nothing
else. -/
lemma foldl_light_off (l : List Button) :
    ∀ s : FPState, l.foldl light_off s
      = { s with sent := s.sent ++ l.map (fun b => Msg.noteOn b.press 0) } := by
  induction l with
  | nil =>
      intro s
      simp
  | cons b bs ih =>
      intro s
      rw [List.foldl_cons, ih]
      simp [light_off]

lemma all_off_eq (s : FPState) : all_off s = { s with sent := s.sent ++ offMsgs } :=
  foldl_light_off BUTTONS s

/-- C1 (amended): when the `on_close` hook returns normally, `close()`
returns with the teardown complete — callback unregistered, fader cached
at -8192 and that value sent, the 26 light-off messages sent, output
reset, both ports closed; a raised hook instead propagates and skips the
teardown (see the counterexample). -/
theorem C1_close_teardown (hook : FPState → Except String FPState) (s s1 : FPState)
    (h : hook s = Except.ok s1) :
    close hook s = Except.ok (closeTeardown s1) ∧
    (closeTeardown s1).callbackRegistered = false ∧
    fader_get (closeTeardown s1) = -8192 ∧
    (closeTeardown s1).sent = s1.sent ++ [Msg.pitchwheel (-8192)] ++ offMsgs ∧
    (closeTeardown s1).outReset = true ∧
    (closeTeardown s1).inOpen = false ∧
    (closeTeardown s1).outOpen = false := by
  refine ⟨?_, ?_, ?_, ?_, ?_, ?_, ?_⟩
  · unfold close
    rw [h]
    rfl
  all_goals
    show _ = _
    unfold closeTeardown
    norm_num [all_off_eq, set_fader, fader_get]

/-- Witness for C1 with a hook that returns normally. -/
theorem C1_close_teardown_witness :
    close Except.ok openedState = Except.ok (closeTeardown openedState) ∧
    (closeTeardown openedState).callbackRegistered = false ∧
    fader_get (closeTeardown openedState) = -8192 ∧
    (closeTeardown openedState).sent
      = openedState.sent ++ [Msg.pitchwheel (-8192)] ++ offMsgs ∧
    (closeTeardown openedState).outReset = true ∧
    (closeTeardown openedState).inOpen = false ∧
    (closeTeardown openedState).outOpen = false :=
  C1_close_teardown Except.ok openedState openedState rfl

/-- C1 counterexample: when the `on_close` hook raises, `close()` does not
complete the teardown — the error propagates and `close` never returns a
state at all, so in particular no light-off, fader reset, unregistration
or port close happens. -/
theorem C1_close_counterexample :
    close (fun _ => Except.error "boom") openedState = Except.error "boom" ∧
    ¬ ∃ s1, close (fun _ => Except.error "boom") openedState = Except.ok s1 := by
  constructor
  · rfl
  · rintro ⟨s1, hs⟩
    exact Except.noConfusion hs

lemma chaseCursors_length (num_lights : Int) :
    (chaseCursors num_lights).length = numCursors num_lights := by
  simp [chaseCursors, mkCursors]

/-- C2 counterexample: `chase` does not clamp `num_lights` into 1–4; any
value outside `{1, 2, 3, 4}` falls back to the default 2 — at 0 the code
creates 2 cursors while the claimed clamp gives 1, at 7 it creates 2
while the claimed clamp gives 4. -/
theorem C2_chase_counterexample :
    (chaseCursors 0).length = 2 ∧ numLightsClampSpec 0 = 1 ∧
    (chaseCursors 7).length = 2 ∧ numLightsClampSpec 7 = 4 := by
  decide

/-- C2 (amended): `chase` creates `num_lights` cursors when `num_lights`
is one of 1, 2, 3, 4 and the default 2 cursors otherwise, and cursor `i`
is pre-advanced by `i * (12 / effective_num_lights)` positions (floor
division) over the 12-control sequence. -/
theorem C2_chase_cursors (num_lights : Int) :
    ((num_lights = 1 ∨ num_lights = 2 ∨ num_lights = 3 ∨ num_lights = 4) →
      (chaseCursors num_lights).length = num_lights.toNat) ∧
    (¬(num_lights = 1 ∨ num_lights = 2 ∨ num_lights = 3 ∨ num_lights = 4) →
      (chaseCursors num_lights).length = 2) ∧
    (∀ i, i < numCursors num_lights →
      (chaseCursors num_lights)[i]?
        = some ⟨i * (chaseSeq.length / numCursors num_lights)⟩) := by
  refine ⟨?_, ?_, ?_⟩
  · intro h
    rw [chaseCursors_length]
    unfold numCursors
    rw [if_pos h]
  · intro h
    rw [chaseCursors_length]
    unfold numCursors
    rw [if_neg h]
    rfl
  · intro i hi
    unfold chaseCursors mkCursors
    rw [List.getElem?_map, List.getElem?_range hi]
    simp only [Option.map_some']
    by_cases h0 : i = 0
    · subst h0
      simp
    · rw [if_neg h0]

/-- Witness for C2: 3 stays 3 cursors, 0 falls back to 2, and with 4
lights cursor 2 is pre-advanced by 6 positions. -/
theorem C2_chase_cursors_witness :
    (chaseCursors 3).length = (3 : Int).toNat ∧
    (chaseCursors 0).length = 2 ∧
    (chaseCursors 4)[2]? = some ⟨2 * (chaseSeq.length / numCursors 4)⟩ :=
  ⟨(C2_chase_cursors 3).1 (by decide),
   (C2_chase_cursors 0).2.1 (by decide),
   (C2_chase_cursors 4).2.2 2 (by decide)⟩

lemma chaseTicks_length (l : List Button) :
    ∀ (T : Nat) (cs : List Cursor), (chaseTicks l cs T).length = T := by
  intro T
  induction T with
  | zero =>
      intro cs
      rfl
  | succ T ih =>
      intro cs
      simp [chaseTicks, ih]

/-- Closed form of a chase run: the on-phase list of tick `t` maps every
cursor to the sequence element `(idx + t) % 12`. -/
lemma chaseTicks_getElem (l : List Button) :
    ∀ (T : Nat) (cs : List Cursor) (t : Nat), t < T →
      (chaseTicks l cs T)[t]?
        = some (cs.map (fun c => l.getD ((c.idx + t) % l.length) defButton)) := by
  intro T
  induction T with
  | zero =>
      intro cs t ht
      exact absurd ht (Nat.not_lt_zero t)
  | succ T ih =>
      intro cs t ht
      cases t with
      | zero =>
          simp [chaseTicks, tickOnce, Cursor.next]
      | succ u =>
          rw [show chaseTicks l cs (T + 1)
              = (tickOnce l cs).1 :: chaseTicks l (tickOnce l cs).2 T from rfl]
          rw [List.getElem?_cons_succ]
          rw [ih (tickOnce l cs).2 u (Nat.lt_of_succ_lt_succ ht)]
          simp only [tickOnce, Cursor.next, List.map_map]
          have hfun : ((fun c : Cursor => l.getD ((c.idx + u) % l.length) defButton)
                ∘ fun c : Cursor => (⟨c.idx + 1⟩ : Cursor))
              = fun c : Cursor => l.getD ((c.idx + (u + 1)) % l.length) defButton := by
            funext c
            simp only [Function.comp_apply]
            have harg : c.idx + 1 + u = c.idx + (u + 1) := by omega
            rw [harg]
          rw [hfun]

lemma chaseRun_length (num_lights : Int) (T : Nat) :
    (chaseRun num_lights T).length = T :=
  chaseTicks_length chaseSeq T (chaseCursors num_lights)

lemma chaseRun_getElem (num_lights : Int) (T t : Nat) (ht : t < T) :
    (chaseRun num_lights T)[t]? = some (tickLights (numCursors num_lights) t) := by
  unfold chaseRun
  rw [chaseTicks_getElem chaseSeq T (chaseCursors num_lights) t ht]
  congr 1
  unfold tickLights chaseCursors mkCursors
  rw [List.map_map]
  congr 1
  funext i
  simp only [Function.comp_apply]
  by_cases h0 : i = 0
  · subst h0
    simp
  · rw [if_neg h0]

/-- A tick's on-phase lights depend only on the tick index modulo 12. -/
lemma tickLights_mod (n t : Nat) : tickLights n t = tickLights n (t % 12) := by
  have hlen : chaseSeq.length = 12 := by decide
  unfold tickLights
  rw [hlen]
  congr 1
  funext i
  congr 1
  omega

/-- The 48 base cases: for 1–4 cursors and any tick residue, the lit
buttons are pairwise distinct and as many as the cursors. -/
lemma tickLights_nodup_core :
    ∀ r < 12,
      ((tickLights 1 r).Nodup ∧ (tickLights 1 r).length = 1) ∧
      ((tickLights 2 r).Nodup ∧ (tickLights 2 r).length = 2) ∧
      ((tickLights 3 r).Nodup ∧ (tickLights 3 r).length = 3) ∧
      ((tickLights 4 r).Nodup ∧ (tickLights 4 r).length = 4) := by
  decide

/-- C5: for `num_lights` in `{1, 2, 3, 4}`, every tick of a chase run
lights pairwise distinct buttons during its on-phase — exactly
`num_lights` of them. -/
theorem C5_chase_distinct (num_lights : Int)
    (hn : num_lights = 1 ∨ num_lights = 2 ∨ num_lights = 3 ∨ num_lights = 4)
    (ticks : Nat) :
    ∀ l ∈ chaseRun num_lights ticks,
      l.Nodup ∧ l.length = num_lights.toNat ∧
        l.toFinset.card = num_lights.toNat := by
  intro l hl
  obtain ⟨t, hget⟩ := List.mem_iff_getElem?.mp hl
  by_cases hT : t < ticks
  · rw [chaseRun_getElem num_lights ticks t hT] at hget
    have hl' : l = tickLights (numCursors num_lights) t := (Option.some.inj hget).symm
    have h12 : t % 12 < 12 := Nat.mod_lt t (by decide)
    have hcore := tickLights_nodup_core (t % 12) h12
    have hcard : ∀ m : List Button, m.Nodup → m.toFinset.card = m.length :=
      fun m hm => List.toFinset_card_of_nodup hm
    rcases hn with rfl | rfl | rfl | rfl
    · have he : numCursors 1 = 1 := by decide
      rw [hl', he, tickLights_mod]
      exact ⟨hcore.1.1, hcore.1.2,
        (hcard _ hcore.1.1).trans hcore.1.2⟩
    · have he : numCursors 2 = 2 := by decide
      rw [hl', he, tickLights_mod]
      exact ⟨hcore.2.1.1, hcore.2.1.2,
        (hcard _ hcore.2.1.1).trans hcore.2.1.2⟩
    · have he : numCursors 3 = 3 := by decide
      rw [hl', he, tickLights_mod]
      exact ⟨hcore.2.2.1.1, hcore.2.2.1.2,
        (hcard _ hcore.2.2.1.1).trans hcore.2.2.1.2⟩
    · have he : numCursors 4 = 4 := by decide
      rw [hl', he, tickLights_mod]
      exact ⟨hcore.2.2.2.1, hcore.2.2.2.2,
        (hcard _ hcore.2.2.2.1).trans hcore.2.2.2.2⟩
  · exfalso
    have hle : (chaseRun num_lights ticks).length ≤ t := by
      rw [chaseRun_length]
      omega
    rw [List.getElem?_eq_none hle] at hget
    exact Option.noConfusion hget

/-- Witness for C5: the first tick of a 2-light chase lights `Solo` and
`Marker`, two distinct buttons. -/
theorem C5_chase_distinct_witness :
    ([⟨"Solo", 8⟩, ⟨"Marker", 61⟩] : List Button).Nodup ∧
    ([⟨"Solo", 8⟩, ⟨"Marker", 61⟩] : List Button).length = (2 : Int).toNat ∧
    ([⟨"Solo", 8⟩, ⟨"Marker", 61⟩] : List Button).toFinset.card = (2 : Int).toNat :=
  C5_chase_distinct 2 (by decide) 1 [⟨"Solo", 8⟩, ⟨"Marker", 61⟩] (by decide)

end Faderport
